import Mathlib

/-!
Verification development for the powerreader ingestion and aggregation core.

The Python sources under powerreader/ are embedded shallowly:

* machine floats are modelled by an inductive FloatV whose finite values are
  exact rationals (IEEE rounding and overflow are abstracted away; only the
  finite/NaN/infinite distinction matters to the code under study);
* decoded JSON payloads are modelled by the inductive Json below; the byte
  level JSON decoder is an external collaborator (the Python standard
  library), so a payload is represented by its decode result, an
  Option Json, with none standing for a decode failure;
* the SQLite store is an external collaborator; tables are lists of rows,
  and the few SQLite behaviours the code relies on (column validation of an
  INSERT column list, lexicographic TEXT comparison, the datetime function
  on the UTC clock) are modelled explicitly where a claim depends on them.
-/

namespace Powerreader

/-! ## Character and string sanitization (powerreader/mqtt.py) -/

/-- Predicate for the regex class [\x00-\x1f\x7f] compiled with re.ASCII
(_CONTROL_CHAR_RE in mqtt.py). -/
def isControlChar (c : Char) : Bool :=
  c.toNat ≤ 0x1f || c.toNat == 0x7f

/-- Embedding of mqtt._sanitize: truncate to max_len characters, then strip
ASCII control characters. -/
def sanitize (value : String) (max_len : Nat) : String :=
  String.mk ((value.toList.take max_len).filter (fun c => !(isControlChar c)))

/-- Embedding of _TIMESTAMP_RE, the anchored prefix pattern
\d{4}-\d{2}-\d{2}T\d{2}:\d{2}:\d{2}; the \d class is modelled by the ASCII
digits (the payload strings of interest are ASCII). Matching is against the
start of the string, as re.match does. -/
def timestampPatternChecks : List (Char → Bool) :=
  [Char.isDigit, Char.isDigit, Char.isDigit, Char.isDigit, (· == '-'),
   Char.isDigit, Char.isDigit, (· == '-'),
   Char.isDigit, Char.isDigit, (· == 'T'),
   Char.isDigit, Char.isDigit, (· == ':'),
   Char.isDigit, Char.isDigit, (· == ':'),
   Char.isDigit, Char.isDigit]

/-- Check a list of character predicates against the prefix of a character
list; an exhausted input with predicates remaining is a failed match. -/
def matchesPrefix : List (Char → Bool) → List Char → Bool
  | [], _ => true
  | _ :: _, [] => false
  | p :: ps, c :: cs => p c && matchesPrefix ps cs

/-- Success of _TIMESTAMP_RE.match on a string. -/
def timestampMatch (s : String) : Bool :=
  matchesPrefix timestampPatternChecks s.toList

/-- Split of a character list at every occurrence of the separator, the
splitter underlying the Python str.split calls of the source (all of which
use a one character separator). -/
def splitOnChar (sep : Char) : List Char → List (List Char)
  | [] => [[]]
  | x :: xs =>
    if x == sep then [] :: splitOnChar sep xs
    else
      match splitOnChar sep xs with
      | h :: t => (x :: h) :: t
      | [] => [[x]]

/-- Model of Python str.split with a one character separator. -/
def pySplit (sep : Char) (s : String) : List String :=
  (splitOnChar sep s.toList).map String.mk

/-- Whitespace class of Python str.strip with no argument, restricted to the
ASCII whitespace characters. -/
def pyIsSpace (c : Char) : Bool :=
  c == ' ' || c == '\t' || c == '\n' || c == '\x0d' || c == '\x0b' || c == '\x0c'

/-- Model of Python str.strip(): drop whitespace from both ends. -/
def pyTrim (s : String) : String :=
  String.mk ((((s.toList.dropWhile pyIsSpace).reverse.dropWhile pyIsSpace).reverse))

/-- Model of Python str.lower() on the ASCII range. -/
def pyLower (s : String) : String :=
  String.mk (s.toList.map Char.toLower)

/-- Keep first deduplication with an accumulator of already seen keys,
structurally recursive so that concrete instances evaluate inside the
kernel. -/
def dedupAcc [BEq α] (seen : List α) : List α → List α
  | [] => []
  | x :: xs =>
    if seen.contains x then dedupAcc seen xs
    else x :: dedupAcc (x :: seen) xs

/-- Distinct elements of a list in first occurrence order, used for the
grouping keys of a SQL GROUP BY and for the Python set of device ids (in
both cases only the collection of distinct keys is observable). -/
def dedupFirst [BEq α] (xs : List α) : List α :=
  dedupAcc [] xs

/-! ## Model of Python float values and decoded JSON -/

/-- Model of a Python float: an exact rational when finite, otherwise one of
the three non-finite values. -/
inductive FloatV where
  | finite (q : ℚ)
  | nan
  | inf
  | ninf
  deriving DecidableEq, Repr

/-- Truth of math.isfinite on a modelled float. -/
def FloatV.isFinite : FloatV → Bool
  | .finite _ => true
  | _ => false

/-- Model of a decoded JSON document as produced by json.loads (which also
accepts the NaN and Infinity extensions, hence numbers carry a FloatV).
Object field lists are key deduplicated, as a decoded Python dict is. -/
inductive Json where
  | null
  | bool (b : Bool)
  | num (v : FloatV)
  | str (s : String)
  | arr (elems : List Json)
  | obj (fields : List (String × Json))

/-- Lookup modelling pythonDict.get(key) on a decoded JSON object: a missing
key and a key bound to JSON null both come back as Python None, modelled as
none here. -/
def pyDictGet (fields : List (String × Json)) (k : String) : Option Json :=
  match fields.lookup k with
  | some Json.null => none
  | some v => some v
  | none => none

/-- Digits of a character list folded into a natural number. -/
def digitsToNat (cs : List Char) : Nat :=
  cs.foldl (fun acc c => acc * 10 + (c.toNat - 48)) 0

/-- Value of a digit run together with a fractional scale, used for the part
after the decimal point. -/
def fracValue (cs : List Char) : ℚ :=
  (digitsToNat cs : ℚ) / ((10 : ℚ) ^ cs.length)

/-- Decimal core of the Python float(string) conversion: optional sign,
digits around an optional point (at least one digit required), optional
exponent. Underscore digit separators are not modelled. -/
def parseDecimal (cs : List Char) : Option ℚ :=
  let core : List Char → Option ℚ := fun body =>
    let intPart := body.takeWhile Char.isDigit
    let rest1 := body.dropWhile Char.isDigit
    let hasPoint := rest1.head? == some '.'
    let afterPoint := if hasPoint then rest1.drop 1 else rest1
    let fracPart := if hasPoint then afterPoint.takeWhile Char.isDigit else []
    let rest2 := if hasPoint then afterPoint.dropWhile Char.isDigit else rest1
    if intPart.isEmpty && fracPart.isEmpty then none
    else
      let mantissa : ℚ := (digitsToNat intPart : ℚ) + fracValue fracPart
      match rest2 with
      | [] => some mantissa
      | e :: es =>
        if e == 'e' || e == 'E' then
          let expNeg := es.head? == some '-'
          let esBody := if es.head? == some '-' || es.head? == some '+'
            then es.drop 1 else es
          if esBody.isEmpty || !(esBody.all Char.isDigit) then none
          else
            let n := digitsToNat esBody
            some (if expNeg then mantissa / ((10 : ℚ) ^ n)
              else mantissa * ((10 : ℚ) ^ n))
        else none
  match cs with
  | '-' :: body => (core body).map (fun q => -q)
  | '+' :: body => core body
  | body => core body

/-- Model of the Python float(string) conversion: surrounding whitespace is
stripped, the inf, infinity and nan names are recognized case
insensitively with an optional sign, and everything else goes through the
decimal parser; none models a ValueError. -/
def strToFloat (s : String) : Option FloatV :=
  let t := pyLower (pyTrim s)
  if t == "inf" || t == "+inf" || t == "infinity" || t == "+infinity" then
    some FloatV.inf
  else if t == "-inf" || t == "-infinity" then some FloatV.ninf
  else if t == "nan" || t == "+nan" || t == "-nan" then some FloatV.nan
  else (parseDecimal t.toList).map FloatV.finite

/-- Model of the Python float(x) call on a decoded JSON value; none models a
TypeError or ValueError. Booleans convert to 0.0 and 1.0. -/
def pyFloat : Json → Option FloatV
  | Json.null => none
  | Json.bool b => some (FloatV.finite (if b then 1 else 0))
  | Json.num v => some v
  | Json.str s => strToFloat s
  | Json.arr _ => none
  | Json.obj _ => none

/-- Model of the Python str(x) rendering of a decoded JSON value, used on
the Time field before pattern validation. String values pass through
unchanged; the renderings of the other shapes are abbreviated (a float repr
always contains a point or an exponent marker, a container repr starts with
a bracket, so none of them can match the timestamp pattern, exactly as the
abbreviations here cannot). -/
def pyStr : Json → String
  | Json.str s => s
  | Json.bool true => "True"
  | Json.bool false => "False"
  | Json.null => "None"
  | Json.num (FloatV.finite q) => "float:" ++ toString q
  | Json.num FloatV.nan => "nan"
  | Json.num FloatV.inf => "inf"
  | Json.num FloatV.ninf => "-inf"
  | Json.arr _ => "[...]"
  | Json.obj _ => "\x7b...\x7d"

/-! ## Payload parsing (powerreader/mqtt.py) -/

/-- Default field mapping for Tasmota LK13BE payloads (DEFAULT_FIELD_MAP in
mqtt.py), as an association list in declaration order. -/
def DEFAULT_FIELD_MAP : List (String × String) :=
  [("total_in", "LK13BE.total"), ("total_out", "LK13BE.total_out"),
   ("power_w", "LK13BE.current"), ("voltage", "LK13BE.voltage_l1")]

/-- Embedding of mqtt.parse_allowed_devices: comma separated ids, stripped,
empty entries dropped; an all whitespace input gives the empty collection.
The Python set is modelled as the deduplicated list (only membership is ever
consulted). -/
def parse_allowed_devices (raw : String) : List String :=
  if pyTrim raw == "" then []
  else dedupFirst (((pySplit ',' raw).map pyTrim).filter (fun d => d != ""))

/-- Walk of the dotted path inside mqtt._resolve_dotted: one segment at a
time; a non object intermediate aborts the whole resolution (none); a
missing key or a JSON null becomes the Json.null value, as Python dict.get
hands back None. -/
def walkPath : Json → List String → Option Json
  | cur, [] => some cur
  | Json.obj fs, p :: ps =>
      walkPath (match pyDictGet fs p with
                | some v => v
                | none => Json.null) ps
  | _, _ :: _ => none

/-- Embedding of mqtt._resolve_dotted: walk the dotted path, reject a Python
None result, convert with float(), reject a non finite conversion. -/
def resolve_dotted (data : Json) (path : String) : Option ℚ :=
  match walkPath data (pySplit '.' path) with
  | none => none
  | some Json.null => none
  | some v =>
    match pyFloat v with
    | none => none
    | some (FloatV.finite q) => some q
    | some _ => none

/-- Canonical reading produced by parse_tasmota_message: the sanitized
timestamp plus one optional float per field map key, in field map order. -/
structure Parsed where
  timestamp : String
  fields : List (String × Option ℚ)
  deriving DecidableEq, Repr

/-- Embedding of mqtt.parse_tasmota_message on the decode result of the
payload bytes (none standing for a JSONDecodeError or UnicodeDecodeError,
both of which the source catches). -/
def parse_tasmota_message (decoded : Option Json) (field_map : List (String × String)) :
    Option Parsed :=
  match decoded with
  | none => none
  | some data =>
    match data with
    | Json.obj fs =>
      match pyDictGet fs ("Time") with
      | none => none
      | some t =>
        let ts := sanitize (pyStr t) 32
        if timestampMatch ts then
          some { timestamp := ts,
                 fields := field_map.map (fun kv => (kv.1, resolve_dotted data kv.2)) }
        else none
    | _ => none

/-- Embedding of mqtt.extract_device_id: sanitize the topic to 256
characters, split on the slash, use segment index 1 when there are at least
three segments and the whole topic otherwise, then sanitize to 64. -/
def extract_device_id (topic : String) : String :=
  let t := sanitize topic 256
  let parts := pySplit '/' t
  let raw := match parts with
    | _ :: x :: _ :: _ => x
    | _ => t
  sanitize raw 64

/-! ## Ingestion orchestrator (MqttSubscriber._on_message in mqtt.py) -/

/-- Store side effects submitted by the message handler. The handler only
schedules these coroutines; executing them is the job of the async runtime,
so a pure effect list is the faithful observable of one handler call. -/
inductive Effect where
  | insertMqttLog (device_id : Option String) (status : String)
      (summary : Option String) (topic : Option String)
  | insertReadingAndLog (device_id : String) (timestamp : String)
      (total_in total_out power_w voltage : Option ℚ)
      (log_summary : Option String) (log_topic : String)
  deriving DecidableEq, Repr

/-- Subscriber configuration consumed by the handler: the storage mode, the
parsed allowlist and the parsed field map (Settings plus the two parse
helpers applied in MqttSubscriber.__init__). -/
structure SubscriberCfg where
  poll_store_mode : String
  allowed_devices : List String
  field_map : List (String × String)

/-- Per device map of the monotonic timestamp of the last stored message
(MqttSubscriber._last_stored), keyed by device id. -/
def LastStored := List (String × ℚ)

/-- Update of the last stored map at one device id, modelling the Python
dict item assignment. -/
def LastStored.set (m : LastStored) (device : String) (now : ℚ) : LastStored :=
  (m.filter (fun kv => kv.1 != device)) ++ [(device, now)]

/-- Lookup in the last stored map, modelling dict.get. -/
def LastStored.get (m : LastStored) (device : String) : Option ℚ :=
  m.lookup device

/-- Rendering of a parsed optional float inside an f-string; the claims
under study never depend on the exact digits, so the Python float formatting
is abbreviated to the rational rendering. -/
def formatVal (q : ℚ) : String := toString q

/-- Summary built by the handler from the parsed values: power, total in and
voltage, in that order, comma joined, sanitized to 256 characters; an empty
part list gives a Python None. -/
def buildSummary (parsed : Parsed) : Option String :=
  let get := fun (k : String) => (parsed.fields.lookup k).join
  let parts :=
    (match get ("power_w") with
     | some v => [formatVal v ++ "W"]
     | none => []) ++
    (match get ("total_in") with
     | some v => [formatVal v ++ "kWh"]
     | none => []) ++
    (match get ("voltage") with
     | some v => [formatVal v ++ "V"]
     | none => [])
  match parts with
  | [] => none
  | p :: ps => some (sanitize (ps.foldl (fun a s => a ++ ", " ++ s) p) 256)

/-- Try body of _on_message (steps 1 to 5): allowlist check, parse,
downsample gate, summary, write submission. Produces the submitted effects
and the updated last stored map. -/
def onMessageTry (cfg : SubscriberCfg) (last : LastStored)
    (topic : String) (decoded : Option Json) (now : ℚ) :
    List Effect × LastStored :=
  let device_id := extract_device_id topic
  if cfg.allowed_devices ≠ [] ∧ device_id ∉ cfg.allowed_devices then
    ([], last)
  else
    match parse_tasmota_message decoded cfg.field_map with
    | none =>
      ([Effect.insertMqttLog (some device_id) ("invalid")
          (some ("unparseable payload")) (some topic)], last)
    | some parsed =>
      if cfg.poll_store_mode == "downsample_60s" &&
          (match last.get device_id with
           | some l => decide (now - l < 60)
           | none => false) then
        ([], last)
      else
        let newLast := last.set device_id now
        let get := fun (k : String) => (parsed.fields.lookup k).join
        ([Effect.insertReadingAndLog device_id parsed.timestamp
            (get ("total_in")) (get ("total_out")) (get ("power_w"))
            (get ("voltage")) (buildSummary parsed) topic], newLast)

/-- Embedding of the whole _on_message handler. The pure try body above
cannot itself raise, so the possibility of an exception inside steps 1 to 5
is represented by the fault input: fault = some m models the try body
raising an exception whose str() is m before reaching the gate update, and
the handler then runs its except branch; fault = none is the normal path.
The handler is a total function, which is the model level statement that no
exception escapes it. -/
def onMessage (cfg : SubscriberCfg) (last : LastStored)
    (topic : String) (decoded : Option Json) (now : ℚ)
    (fault : Option String) : List Effect × LastStored :=
  match fault with
  | some excMsg =>
    ([Effect.insertMqttLog (some (extract_device_id topic)) ("error")
        (some excMsg) (some topic)], last)
  | none => onMessageTry cfg last topic decoded now

/-! ## Store model (powerreader/db.py, schema _SCHEMA_SQL) -/

/-- Row of the raw_readings table (the integer id and the store assigned
created_at column are not needed by any claim under study and are omitted;
"latest" never consults them). -/
structure RawReading where
  device_id : String
  timestamp : String
  total_in : Option ℚ
  total_out : Option ℚ
  power_w : Option ℚ
  voltage : Option ℚ
  deriving DecidableEq, Repr

/-- Row of the hourly_agg table, following the schema columns of
_SCHEMA_SQL: device_id, hour, avg_power_w, kwh_consumed, reading_count,
coverage_seconds, with the nullable columns as options. -/
structure HourlyRow where
  device_id : String
  hour : String
  avg_power_w : Option ℚ
  kwh_consumed : Option ℚ
  reading_count : Option ℤ
  coverage_seconds : Option ℤ
  deriving DecidableEq, Repr

/-- Row of the daily_agg table per _SCHEMA_SQL. -/
structure DailyRow where
  device_id : String
  date : String
  avg_power_w : Option ℚ
  kwh_consumed : Option ℚ
  reading_count : Option ℤ
  deriving DecidableEq, Repr

/-- Row of the mqtt_log table per _SCHEMA_SQL (the id is omitted; the
timestamp is the TEXT value held by the row). -/
structure MqttLogRow where
  timestamp : String
  device_id : Option String
  status : String
  summary : Option String
  topic : Option String
  deriving DecidableEq, Repr

/-- Database state: the four tables, each a list of rows in storage
order. -/
structure DB where
  raw_readings : List RawReading
  hourly_agg : List HourlyRow
  daily_agg : List DailyRow
  mqtt_log : List MqttLogRow
  deriving DecidableEq, Repr

/-- Column names of the hourly_agg table as created by _SCHEMA_SQL (the
migration in init_db only re-adds coverage_seconds, which the CREATE TABLE
statement already holds, so this is the full live column list). -/
def hourlyAggTableColumns : List String :=
  ["id", "device_id", "hour", "avg_power_w", "kwh_consumed",
   "reading_count", "coverage_seconds"]

/-- Column names of the daily_agg table as created by _SCHEMA_SQL. -/
def dailyAggTableColumns : List String :=
  ["id", "device_id", "date", "avg_power_w", "kwh_consumed", "reading_count"]

/-- Column list named by the INSERT OR REPLACE statement inside
compute_hourly_agg (aggregation.py). -/
def computeHourlyInsertColumns : List String :=
  ["device_id", "hour", "avg_power_w", "max_power_w", "min_power_w",
   "kwh_consumed", "reading_count"]

/-- Column list named by the INSERT OR REPLACE statement inside
compute_daily_agg (aggregation.py). -/
def computeDailyInsertColumns : List String :=
  ["device_id", "date", "avg_power_w", "max_power_w", "min_power_w",
   "kwh_consumed", "reading_count"]

/-- SQLite validation of an INSERT column list: the first named column the
target table does not hold, if any. SQLite raises
sqlite3.OperationalError (table ... has no column named ...) for it when
the statement is prepared, before any row is touched. -/
def firstUnknownColumn (tableCols insertCols : List String) : Option String :=
  insertCols.find? (fun c => !(tableCols.contains c))

/-! ## Aggregation engine (powerreader/aggregation.py) -/

/-- Maximum of a rational list, 0 on the empty list (SQL aggregate MAX is
only consulted on non empty groups). -/
def qMax : List ℚ → ℚ
  | [] => 0
  | x :: xs => xs.foldl max x

/-- Minimum of a rational list, 0 on the empty list. -/
def qMin : List ℚ → ℚ
  | [] => 0
  | x :: xs => xs.foldl min x

/-- Grouping key of the hourly SELECT: device_id together with
strftime of %Y-%m-%dT%H on the timestamp, which on the T separated second
precision timestamps stored by the pipeline is the 13 character prefix. -/
def hourKey (r : RawReading) : String × String :=
  (r.device_id, r.timestamp.take 13)

/-- Upsert a batch of hourly rows (INSERT OR REPLACE honouring the
UNIQUE(device_id, hour) constraint): each new row deletes any stored row
with its key and is appended. -/
def upsertHourly (tbl : List HourlyRow) (new : List HourlyRow) :
    List HourlyRow :=
  new.foldl (fun acc row =>
    (acc.filter (fun r => !(r.device_id == row.device_id && r.hour == row.hour)))
      ++ [row]) tbl

/-- Upsert a batch of daily rows honouring UNIQUE(device_id, date). -/
def upsertDaily (tbl : List DailyRow) (new : List DailyRow) :
    List DailyRow :=
  new.foldl (fun acc row =>
    (acc.filter (fun r => !(r.device_id == row.device_id && r.date == row.date)))
      ++ [row]) tbl

/-- Rows the hourly SELECT of compute_hourly_agg would build: raw readings
with a non null total_in, grouped by (device_id, hour), each group giving
avg_power_w = (MAX(total_in) - MIN(total_in)) * 1000, kwh_consumed =
MAX(total_in) - MIN(total_in) and reading_count = COUNT(*). The statement
names no coverage_seconds column, so that column would stay NULL. -/
def hourlySelectRows (raws : List RawReading) : List HourlyRow :=
  let rows := raws.filter (fun r => r.total_in.isSome)
  (dedupFirst (rows.map hourKey)).map (fun k =>
    let grp := rows.filter (fun r => hourKey r == k)
    let vals := grp.filterMap (fun r => r.total_in)
    { device_id := k.1, hour := k.2,
      avg_power_w := some ((qMax vals - qMin vals) * 1000),
      kwh_consumed := some (qMax vals - qMin vals),
      reading_count := some (grp.length : ℤ),
      coverage_seconds := none })

/-- Embedding of aggregation.compute_hourly_agg. SQLite validates the INSERT
column list against the live hourly_agg table first; an unknown column makes
execute raise OperationalError, nothing is written and no commit happens. On
the (here unreachable) valid path the grouped rows are upserted and the
number of buckets is returned. -/
def compute_hourly_agg (db : DB) : Except String (DB × Nat) :=
  match firstUnknownColumn hourlyAggTableColumns computeHourlyInsertColumns with
  | some c => Except.error ("table hourly_agg has no column named " ++ c)
  | none =>
    let newRows := hourlySelectRows db.raw_readings
    Except.ok ({ db with hourly_agg := upsertHourly db.hourly_agg newRows },
      newRows.length)

/-- Average of the non null entries of an optional rational list, NULL when
every entry is NULL, as the SQL aggregate AVG behaves. -/
def sqlAvg (vals : List (Option ℚ)) : Option ℚ :=
  let xs := vals.filterMap id
  if xs.isEmpty then none else some (xs.sum / (xs.length : ℚ))

/-- Sum of the non null entries, NULL when every entry is NULL, as the SQL
aggregate SUM behaves. -/
def sqlSumQ (vals : List (Option ℚ)) : Option ℚ :=
  let xs := vals.filterMap id
  if xs.isEmpty then none else some xs.sum

/-- Integer variant of the SQL SUM aggregate. -/
def sqlSumZ (vals : List (Option ℤ)) : Option ℤ :=
  let xs := vals.filterMap id
  if xs.isEmpty then none else some xs.sum

/-- Rows the daily SELECT of compute_daily_agg would build from hourly_agg
alone: grouping by (device_id, substr(hour, 1, 10)), averaging the hourly
avg_power_w and summing kwh_consumed and reading_count. -/
def dailySelectRows (hourly : List HourlyRow) : List DailyRow :=
  (dedupFirst (hourly.map (fun r => (r.device_id, r.hour.take 10)))).map (fun k =>
    let grp := hourly.filter
      (fun r => r.device_id == k.1 && r.hour.take 10 == k.2)
    { device_id := k.1, date := k.2,
      avg_power_w := sqlAvg (grp.map (fun r => r.avg_power_w)),
      kwh_consumed := sqlSumQ (grp.map (fun r => r.kwh_consumed)),
      reading_count := sqlSumZ (grp.map (fun r => r.reading_count)) })

/-- Embedding of aggregation.compute_daily_agg, with the same SQLite column
validation against the live daily_agg table. -/
def compute_daily_agg (db : DB) : Except String (DB × Nat) :=
  match firstUnknownColumn dailyAggTableColumns computeDailyInsertColumns with
  | some c => Except.error ("table daily_agg has no column named " ++ c)
  | none =>
    let newRows := dailySelectRows db.hourly_agg
    Except.ok ({ db with daily_agg := upsertDaily db.daily_agg newRows },
      newRows.length)

/-! ## SQLite TEXT ordering

SQLite compares TEXT values with memcmp over their UTF-8 bytes; on UTF-8
that byte order coincides with the lexicographic order of the code points,
modelled here directly on the character lists. -/

/-- Lexicographic strict order on character lists by code point. -/
def charListLt : List Char → List Char → Bool
  | [], [] => false
  | [], _ :: _ => true
  | _ :: _, [] => false
  | a :: as, b :: bs =>
    if a.toNat < b.toNat then true
    else if b.toNat < a.toNat then false
    else charListLt as bs

/-- SQLite TEXT comparison of two strings (BINARY collation). -/
def strLt (a b : String) : Bool :=
  charListLt a.toList b.toList

/-! ## The UTC clock of the store and the SQLite datetime rendering

SQLite is an external collaborator; its datetime function on the 'now'
argument reads the UTC clock and renders "YYYY-MM-DD HH:MM:SS" with a space
separator, and a '-N days' modifier shifts by exact days. The civil
calendar conversion below is the standard era based one. -/

/-- Civil date to a day count since 0000-03-01 (valid for years from 1). -/
def daysFromCivil (y m d : Nat) : Nat :=
  let yAdj := if m ≤ 2 then y - 1 else y
  let era := yAdj / 400
  let yoe := yAdj % 400
  let mp := (m + 9) % 12
  let doy := (153 * mp + 2) / 5 + d - 1
  let doe := yoe * 365 + yoe / 4 - yoe / 100 + doy
  era * 146097 + doe

/-- Day count since 0000-03-01 back to the civil date. -/
def civilFromDays (z : Nat) : Nat × Nat × Nat :=
  let era := z / 146097
  let doe := z % 146097
  let yoe := (doe - doe / 1460 + doe / 36524 - doe / 146096) / 365
  let y := yoe + era * 400
  let doy := doe - (365 * yoe + yoe / 4 - yoe / 100)
  let mp := (5 * doy + 2) / 153
  let d := doy - (153 * mp + 2) / 5 + 1
  let m := if mp < 10 then mp + 3 else mp - 9
  (if m ≤ 2 then y + 1 else y, m, d)

/-- UTC wall clock instant with second precision. -/
structure UtcTime where
  year : Nat
  month : Nat
  day : Nat
  hour : Nat
  minute : Nat
  second : Nat
  deriving DecidableEq, Repr

/-- Seconds since 0000-03-01T00:00:00. -/
def UtcTime.toSeconds (t : UtcTime) : Nat :=
  daysFromCivil t.year t.month t.day * 86400
    + t.hour * 3600 + t.minute * 60 + t.second

/-- Instant from a second count since 0000-03-01T00:00:00. -/
def utcOfSeconds (s : Nat) : UtcTime :=
  let z := s / 86400
  let rem := s % 86400
  let c := civilFromDays z
  { year := c.1, month := c.2.1, day := c.2.2,
    hour := rem / 3600, minute := (rem % 3600) / 60, second := rem % 60 }

/-- Zero padded decimal rendering of width 2. -/
def pad2 (n : Nat) : String :=
  if n < 10 then "0" ++ toString n else toString n

/-- Zero padded decimal rendering of width 4. -/
def pad4 (n : Nat) : String :=
  if n < 10 then "000" ++ toString n
  else if n < 100 then "00" ++ toString n
  else if n < 1000 then "0" ++ toString n
  else toString n

/-- Rendering of an instant the way the SQLite datetime function prints it:
"YYYY-MM-DD HH:MM:SS" with a space between date and time. -/
def sqliteRender (t : UtcTime) : String :=
  pad4 t.year ++ "-" ++ pad2 t.month ++ "-" ++ pad2 t.day ++ " "
    ++ pad2 t.hour ++ ":" ++ pad2 t.minute ++ ":" ++ pad2 t.second

/-- Cutoff string computed by datetime('now', '-N days'): UTC now shifted
back N exact days. -/
def sqliteNowMinusDays (nowUtc : UtcTime) (n : Nat) : String :=
  sqliteRender (utcOfSeconds (nowUtc.toSeconds - n * 86400))

/-! ## Retention pruner (powerreader/aggregation.py) -/

/-- Embedding of aggregation.prune_raw_readings: DELETE FROM raw_readings
WHERE timestamp < datetime('now', '-N days'). The comparison is the SQLite
TEXT comparison, which on these strings is the lexicographic character
order; the clock input is the UTC instant datetime reads. Returns the
updated store and the deleted row count. -/
def prune_raw_readings (db : DB) (nowUtc : UtcTime) (retention_days : Nat) :
    DB × Nat :=
  let cutoff := sqliteNowMinusDays nowUtc retention_days
  let kept := db.raw_readings.filter (fun r => !(strLt r.timestamp cutoff))
  ({ db with raw_readings := kept }, db.raw_readings.length - kept.length)

/-- Embedding of aggregation.prune_mqtt_log: the same deletion on the
mqtt_log table. -/
def prune_mqtt_log (db : DB) (nowUtc : UtcTime) (retention_days : Nat) :
    DB × Nat :=
  let cutoff := sqliteNowMinusDays nowUtc retention_days
  let kept := db.mqtt_log.filter (fun r => !(strLt r.timestamp cutoff))
  ({ db with mqtt_log := kept }, db.mqtt_log.length - kept.length)

/-! ## Latest reading accessor (db.get_latest_reading) -/

/-- Choice of the later of two readings by the SQLite TEXT order on the
device reported timestamp column; on a tie the first argument is kept
(SQLite leaves the choice among equal keys unspecified, and every claim
under study is stated so that it holds for any such choice). -/
def laterByTimestamp (a b : RawReading) : RawReading :=
  if strLt a.timestamp b.timestamp then b else a

/-- WHERE clause of get_latest_reading: the optional device filter. -/
def deviceFiltered (rows : List RawReading) (device_id : Option String) :
    List RawReading :=
  match device_id with
  | some d => rows.filter (fun r => r.device_id == d)
  | none => rows

/-- Embedding of db.get_latest_reading: optional device filter, then
ORDER BY timestamp DESC LIMIT 1 over raw_readings; none on an empty
result set. -/
def get_latest_reading (rows : List RawReading) (device_id : Option String) :
    Option RawReading :=
  match deviceFiltered rows device_id with
  | [] => none
  | r :: rs => some (rs.foldl laterByTimestamp r)

/-! ## Concrete inputs used by the claim theorems -/

/-- Raw reading for device meter1 carrying only a cumulative register. -/
def mkReading (ts : String) (total : ℚ) : RawReading :=
  { device_id := "meter1", timestamp := ts, total_in := some total,
    total_out := some 0, power_w := none, voltage := none }

/-- The bucket of the worked spec example: readings at 10:00, 10:20 and
10:40 with total_in 1000, 1001 and 1003. -/
def c1Db : DB :=
  { raw_readings :=
      [mkReading ("2024-01-15T10:00:00") 1000,
       mkReading ("2024-01-15T10:20:00") 1001,
       mkReading ("2024-01-15T10:40:00") 1003],
    hourly_agg := [], daily_agg := [], mqtt_log := [] }

/-- The seeded database of the repository test fixtures: seven readings over
two days. -/
def seededDb : DB :=
  { raw_readings :=
      [mkReading ("2024-01-15T10:00:00") 1000,
       mkReading ("2024-01-15T10:20:00") 1001,
       mkReading ("2024-01-15T10:40:00") 1003,
       mkReading ("2024-01-15T14:00:00") 1010,
       mkReading ("2024-01-15T14:30:00") 1015,
       mkReading ("2024-01-16T10:00:00") 1100,
       mkReading ("2024-01-16T10:30:00") 1105],
    hourly_agg := [], daily_agg := [], mqtt_log := [] }

/-- Hourly aggregate rows for one day of meter1, the state the daily rollup
is meant to consume (hour 10: 3 readings, 3 kWh; hour 14: 2 readings,
5 kWh). -/
def c3Db : DB :=
  { raw_readings := [],
    hourly_agg :=
      [{ device_id := "meter1", hour := "2024-01-15T10",
         avg_power_w := some 3000, kwh_consumed := some 3,
         reading_count := some 3, coverage_seconds := some 2400 },
       { device_id := "meter1", hour := "2024-01-15T14",
         avg_power_w := some 5000, kwh_consumed := some 5,
         reading_count := some 2, coverage_seconds := some 1800 }],
    daily_agg := [], mqtt_log := [] }

/-- C1: the claim expects the hourly rollup to populate each bucket row with
the kWh delta, its Wh scaling, the reading count and coverage_seconds. On
this database the INSERT of compute_hourly_agg names the columns
max_power_w and min_power_w, which the hourly_agg table of _SCHEMA_SQL does
not hold, so SQLite rejects the statement and no bucket row is ever written;
moreover the SELECT text computes no coverage at all, so even with a
repaired column list the example bucket would carry coverage_seconds NULL
rather than 2400. -/
theorem compute_hourly_agg_missing_columns :
    compute_hourly_agg c1Db =
      Except.error ("table hourly_agg has no column named max_power_w") ∧
    hourlySelectRows c1Db.raw_readings =
      [{ device_id := "meter1", hour := "2024-01-15T10",
         avg_power_w := some 3000, kwh_consumed := some 3,
         reading_count := some 3, coverage_seconds := none }] := by
  constructor
  · rfl
  · have h1 : ("2024-01-15T10:00:00" : String).take 13 = "2024-01-15T10" := rfl
    have h2 : ("2024-01-15T10:20:00" : String).take 13 = "2024-01-15T10" := rfl
    have h3 : ("2024-01-15T10:40:00" : String).take 13 = "2024-01-15T10" := rfl
    norm_num [hourlySelectRows, c1Db, mkReading, hourKey, dedupFirst, dedupAcc,
      h1, h2, h3, qMax, qMin, List.foldl, max_def, min_def, List.filterMap_cons, List.filterMap_nil]

/-- C2: the idempotence scenario of the claim (run the rollup twice over
unchanged data and compare the rows) cannot be exercised: on every database
state both rollups abort with the SQLite unknown column error before
writing, so the recomputed aggregate rows the claim and the repository test
test_hourly_agg_idempotent describe never exist. -/
theorem compute_agg_always_errors : ∀ db : DB,
    compute_hourly_agg db =
      Except.error ("table hourly_agg has no column named max_power_w") ∧
    compute_daily_agg db =
      Except.error ("table daily_agg has no column named max_power_w") := by
  intro db
  constructor
  · rfl
  · rfl

/-- C3: the daily SELECT of compute_daily_agg does read only hourly_agg and
aggregates it exactly as the claim states (mean of the hourly avg_power_w,
sum of kwh_consumed, sum of reading_count), but the INSERT names the
columns max_power_w and min_power_w which daily_agg does not hold, so the
statement raises and no DailyAggregate row is ever produced. -/
theorem compute_daily_agg_missing_columns :
    compute_daily_agg c3Db =
      Except.error ("table daily_agg has no column named max_power_w") ∧
    dailySelectRows c3Db.hourly_agg =
      [{ device_id := "meter1", date := "2024-01-15",
         avg_power_w := some 4000, kwh_consumed := some 8,
         reading_count := some 5 }] := by
  constructor
  · rfl
  · have h1 : ("2024-01-15T10" : String).take 10 = "2024-01-15" := rfl
    have h2 : ("2024-01-15T14" : String).take 10 = "2024-01-15" := rfl
    norm_num [dailySelectRows, c3Db, dedupFirst, dedupAcc, h1, h2,
      sqlAvg, sqlSumQ, sqlSumZ, List.filterMap_cons, List.filterMap_nil]
    refine ⟨fun h => ?_, fun h => ?_, fun h => ?_⟩ <;> exact absurd h (by simp)

/-! ## Claim C4: the payload normalizer -/

/-- Unparseable condition of claim C4, following the claim wording: the
bytes do not decode as JSON, or the top level value is not an object, or the
Time field is absent, or the Time value after truncation to 32 characters
and control character stripping does not match the timestamp prefix
pattern. -/
def specUnparseable (decoded : Option Json) : Bool :=
  match decoded with
  | none => true
  | some (Json.obj fs) =>
    match pyDictGet fs ("Time") with
    | none => true
    | some t => !(timestampMatch (sanitize (pyStr t) 32))
  | some _ => true

/-- Claim C4: the payload normalizer is a total function returning exactly
one of a canonical reading or none, it returns none precisely under the
condition list of the claim, and on success every field map entry is
recorded as the resolver output for its path (in particular a payload whose
mapped values are all absent still parses, each field recorded as
none). -/
theorem parse_unparseable_iff (decoded : Option Json)
    (fm : List (String × String)) :
    (parse_tasmota_message decoded fm = none ↔
      specUnparseable decoded = true) ∧
    (∀ fs p, decoded = some (Json.obj fs) →
      parse_tasmota_message decoded fm = some p →
      p.fields = fm.map (fun kv => (kv.1, resolve_dotted (Json.obj fs) kv.2))) := by
  constructor
  · cases decoded with
    | none => simp [parse_tasmota_message, specUnparseable]
    | some data =>
      cases data with
      | obj fs =>
        simp only [parse_tasmota_message, specUnparseable]
        cases h : pyDictGet fs ("Time") with
        | none => simp
        | some t =>
          by_cases hm : timestampMatch (sanitize (pyStr t) 32) = true <;>
            simp [hm]
      | null => simp [parse_tasmota_message, specUnparseable]
      | bool b => simp [parse_tasmota_message, specUnparseable]
      | num v => simp [parse_tasmota_message, specUnparseable]
      | str s => simp [parse_tasmota_message, specUnparseable]
      | arr es => simp [parse_tasmota_message, specUnparseable]
  · intro fs p hdec hp
    subst hdec
    simp only [parse_tasmota_message] at hp
    cases h : pyDictGet fs ("Time") with
    | none =>
      simp only [h] at hp
      exact Option.noConfusion hp
    | some t =>
      simp only [h] at hp
      by_cases hm : timestampMatch (sanitize (pyStr t) 32) = true
      · simp only [if_pos hm] at hp
        injection hp with h2
        rw [← h2]
      · simp only [if_neg hm] at hp
        exact Option.noConfusion hp

/-- Payload with a valid timestamp and no mapped field values, the all
absent example of claim C4. -/
def c4Fields : List (String × Json) :=
  [("Time", Json.str ("2024-01-15T14:35:00"))]

/-- Canonical reading the normalizer produces for c4Fields under the default
field map. -/
def c4Parsed : Parsed :=
  { timestamp := "2024-01-15T14:35:00",
    fields := [("total_in", none), ("total_out", none),
               ("power_w", none), ("voltage", none)] }

/-- Witness for C4: the all absent payload parses to the reading with every
field recorded as none, the unparseable condition is false for it, and the
claim theorem instantiates at it. -/
theorem parse_unparseable_iff_witness :
    parse_tasmota_message (some (Json.obj c4Fields)) DEFAULT_FIELD_MAP =
      some c4Parsed ∧
    specUnparseable (some (Json.obj c4Fields)) = false ∧
    c4Parsed.fields = DEFAULT_FIELD_MAP.map
      (fun kv => (kv.1, resolve_dotted (Json.obj c4Fields) kv.2)) :=
  ⟨by decide, by decide,
    (parse_unparseable_iff (some (Json.obj c4Fields)) DEFAULT_FIELD_MAP).2
      c4Fields c4Parsed rfl (by decide)⟩

/-! ## Claim C5: the field resolver -/

/-- No value condition of claim C5, following the claim wording: an
intermediate value along the path is not a nested object, or the final
value is absent, or it cannot be converted to a float, or the conversion is
NaN or infinite. -/
def specResolveNoValue (data : Json) (path : String) : Bool :=
  match walkPath data (pySplit '.' path) with
  | none => true
  | some Json.null => true
  | some v =>
    match pyFloat v with
    | none => true
    | some f => !(FloatV.isFinite f)

/-- Claim C5: the field resolver is total, returns none exactly under the
condition list of the claim, every returned value is the finite float
conversion of the walked final value, and a finite value of arbitrary
magnitude or sign is returned unchanged (no range restriction). -/
theorem resolve_dotted_spec (data : Json) (path : String) :
    (resolve_dotted data path = none ↔ specResolveNoValue data path = true) ∧
    (∀ q : ℚ, resolve_dotted data path = some q →
      ∃ v, walkPath data (pySplit '.' path) = some v ∧
        pyFloat v = some (FloatV.finite q)) ∧
    (∀ q : ℚ,
      resolve_dotted (Json.obj [(("x"), Json.num (FloatV.finite q))]) ("x")
        = some q) := by
  refine ⟨?_, ?_, ?_⟩
  · simp only [resolve_dotted, specResolveNoValue]
    cases hw : walkPath data (pySplit '.' path) with
    | none => simp
    | some v =>
      cases v with
      | null => simp
      | bool b => simp [pyFloat, FloatV.isFinite]
      | num f => cases f <;> simp [pyFloat, FloatV.isFinite]
      | str s =>
        cases hf : pyFloat (Json.str s) with
        | none => simp [hf]
        | some f => cases f <;> simp [hf, FloatV.isFinite]
      | arr es => simp [pyFloat]
      | obj fs => simp [pyFloat]
  · intro q hq
    simp only [resolve_dotted] at hq
    cases hw : walkPath data (pySplit '.' path) with
    | none => simp [hw] at hq
    | some v =>
      refine ⟨v, rfl, ?_⟩
      cases v with
      | null => simp [hw] at hq
      | bool b =>
        cases hf : pyFloat (Json.bool b) with
        | none => simp [hw, hf] at hq
        | some f =>
          cases f with
          | finite r =>
            simp only [hw, hf] at hq
            injection hq with h2
            subst h2
            rfl
          | nan => simp [hw, hf] at hq
          | inf => simp [hw, hf] at hq
          | ninf => simp [hw, hf] at hq
      | num f0 =>
        cases hf : pyFloat (Json.num f0) with
        | none => simp [hw, hf] at hq
        | some f =>
          cases f with
          | finite r =>
            simp only [hw, hf] at hq
            injection hq with h2
            subst h2
            rfl
          | nan => simp [hw, hf] at hq
          | inf => simp [hw, hf] at hq
          | ninf => simp [hw, hf] at hq
      | str s =>
        cases hf : pyFloat (Json.str s) with
        | none => simp [hw, hf] at hq
        | some f =>
          cases f with
          | finite r =>
            simp only [hw, hf] at hq
            injection hq with h2
            subst h2
            rfl
          | nan => simp [hw, hf] at hq
          | inf => simp [hw, hf] at hq
          | ninf => simp [hw, hf] at hq
      | arr es => simp [hw, pyFloat] at hq
      | obj fs => simp [hw, pyFloat] at hq
  · intro q
    rfl

/-- Witness for C5: resolving a NaN leaf yields none and satisfies the no
value condition, and the no range restriction branch instantiates at the
huge negative value -(10 ^ 30). -/
theorem resolve_dotted_spec_witness :
    resolve_dotted (Json.obj [(("x"), Json.num FloatV.nan)]) ("x") = none ∧
    specResolveNoValue (Json.obj [(("x"), Json.num FloatV.nan)]) ("x") = true ∧
    resolve_dotted
      (Json.obj [(("x"), Json.num (FloatV.finite (-((10 : ℚ) ^ 30))))]) ("x")
      = some (-((10 : ℚ) ^ 30)) :=
  ⟨by decide, by decide,
    (resolve_dotted_spec (Json.obj [(("x"), Json.num FloatV.nan)]) ("x")).2.2
      (-((10 : ℚ) ^ 30))⟩

/-! ## Claims C6 to C8: the message handler -/

/-- Truth of "a reading insert was submitted" for an effect list. -/
def storesReading (effs : List Effect) : Bool :=
  effs.any (fun e => match e with
    | Effect.insertReadingAndLog _ _ _ _ _ _ _ _ => true
    | _ => false)

/-- Audit entries of an effect list carrying a given status. -/
def logsWithStatus (status : String) (effs : List Effect) : List Effect :=
  effs.filter (fun e => match e with
    | Effect.insertMqttLog _ s _ _ => s == status
    | _ => false)

/-- Claim C6: for a message that reaches the gate (admitted device, parsed
payload), the store all mode always admits and records now; downsample mode
admits exactly when the device has no recorded timestamp or at least 60
seconds elapsed, recording now on admission; a downsample rejection leaves
the per device map untouched and submits no effect at all (no audit entry,
no reading insert). -/
theorem downsample_gate_spec (cfg : SubscriberCfg) (last : LastStored)
    (topic : String) (decoded : Option Json) (now : ℚ) (parsed : Parsed)
    (hallow : cfg.allowed_devices = [])
    (hparse : parse_tasmota_message decoded cfg.field_map = some parsed) :
    (cfg.poll_store_mode = "all" →
      storesReading (onMessageTry cfg last topic decoded now).1 = true ∧
      (onMessageTry cfg last topic decoded now).2 =
        last.set (extract_device_id topic) now) ∧
    (cfg.poll_store_mode = "downsample_60s" →
      last.get (extract_device_id topic) = none →
      storesReading (onMessageTry cfg last topic decoded now).1 = true ∧
      (onMessageTry cfg last topic decoded now).2 =
        last.set (extract_device_id topic) now) ∧
    (cfg.poll_store_mode = "downsample_60s" →
      ∀ l : ℚ, last.get (extract_device_id topic) = some l →
      (60 : ℚ) ≤ now - l →
      storesReading (onMessageTry cfg last topic decoded now).1 = true ∧
      (onMessageTry cfg last topic decoded now).2 =
        last.set (extract_device_id topic) now) ∧
    (cfg.poll_store_mode = "downsample_60s" →
      ∀ l : ℚ, last.get (extract_device_id topic) = some l →
      now - l < 60 →
      onMessageTry cfg last topic decoded now = ([], last)) := by
  have hdev : ¬ (cfg.allowed_devices ≠ [] ∧
      extract_device_id topic ∉ cfg.allowed_devices) := by
    simp [hallow]
  refine ⟨?_, ?_, ?_, ?_⟩
  · intro hmode
    simp [onMessageTry, if_neg hdev, hparse, hmode, storesReading]
  · intro hmode hnone
    simp [onMessageTry, if_neg hdev, hparse, hmode, hnone, storesReading]
  · intro hmode l hl hge
    have hnl : ¬ (now - l < 60) := not_lt.mpr hge
    simp [onMessageTry, if_neg hdev, hparse, hmode, hl, hnl, storesReading]
  · intro hmode l hl hlt
    simp [onMessageTry, if_neg hdev, hparse, hmode, hl, hlt]

/-- Configuration used by the gate witness: downsample mode, no allowlist,
default field map. -/
def c6Cfg : SubscriberCfg :=
  { poll_store_mode := "downsample_60s", allowed_devices := [],
    field_map := DEFAULT_FIELD_MAP }

/-- Decoded payload used by the handler witnesses. -/
def c6Decoded : Option Json :=
  some (Json.obj [("Time", Json.str ("2024-01-15T14:30:00")),
    ("LK13BE", Json.obj [("total", Json.num (FloatV.finite 42000))])])

/-- Reading the witness payload parses to. -/
def c6Parsed : Parsed :=
  { timestamp := "2024-01-15T14:30:00",
    fields := [("total_in", some 42000), ("total_out", none),
               ("power_w", none), ("voltage", none)] }

/-- Witness for C6: with the first message stored at monotonic time 0, a
second message 5 seconds later is rejected with no effects and an unchanged
map, while one 61 seconds later is admitted; the rejection and admission
branches of the claim theorem instantiate at these inputs. -/
theorem downsample_gate_spec_witness :
    onMessageTry c6Cfg [("dev1", 0)] ("tele/dev1/SENSOR") c6Decoded 5 =
      ([], [("dev1", 0)]) ∧
    (storesReading
        (onMessageTry c6Cfg [("dev1", 0)] ("tele/dev1/SENSOR") c6Decoded 61).1
      = true ∧
      (onMessageTry c6Cfg [("dev1", 0)] ("tele/dev1/SENSOR") c6Decoded 61).2 =
        LastStored.set [("dev1", 0)] (extract_device_id ("tele/dev1/SENSOR")) 61) :=
  ⟨(downsample_gate_spec c6Cfg [("dev1", 0)] ("tele/dev1/SENSOR") c6Decoded 5
      c6Parsed rfl (by decide)).2.2.2 rfl 0 (by decide) (by norm_num),
   (downsample_gate_spec c6Cfg [("dev1", 0)] ("tele/dev1/SENSOR") c6Decoded 61
      c6Parsed rfl (by decide)).2.2.1 rfl 0 (by decide) (by norm_num)⟩

/-- Claim C7: a device outside a non empty allowlist is discarded silently,
with no effect of any kind and an untouched gate map; with an empty
allowlist the handler behaves exactly as it would if the arriving device
were explicitly allowlisted, so every device is accepted. -/
theorem allowlist_silent_discard (cfg : SubscriberCfg) (last : LastStored)
    (topic : String) (decoded : Option Json) (now : ℚ) :
    (cfg.allowed_devices ≠ [] →
      extract_device_id topic ∉ cfg.allowed_devices →
      onMessage cfg last topic decoded now none = ([], last)) ∧
    (cfg.allowed_devices = [] →
      onMessage cfg last topic decoded now none =
        onMessage { cfg with allowed_devices := [extract_device_id topic] }
          last topic decoded now none) := by
  constructor
  · intro h1 h2
    simp [onMessage, onMessageTry, h1, h2]
  · intro h
    simp [onMessage, onMessageTry, h]

/-- Configuration of the allowlist witness: only meter1 is allowed. -/
def c7Cfg : SubscriberCfg :=
  { poll_store_mode := "all", allowed_devices := ["meter1"],
    field_map := DEFAULT_FIELD_MAP }

/-- Witness for C7: a valid message arriving from meter2 under the meter1
allowlist yields zero effects (no audit entry, no reading insert) and the
unchanged map, by the claim theorem at this concrete input. -/
theorem allowlist_silent_discard_witness :
    onMessage c7Cfg [] ("tele/meter2/SENSOR") c6Decoded 0 none = ([], []) :=
  (allowlist_silent_discard c7Cfg [] ("tele/meter2/SENSOR") c6Decoded 0).1
    (by decide) (by decide)

/-- Claim C8: a fault anywhere in steps 1 to 5 is absorbed by the handler,
which then submits exactly one audit entry with status error carrying the
exception message in place of the reading and leaves the gate map alone;
the handler is total, so no exception propagates, and the fault free path
never produces an error status entry. -/
theorem exception_swallowed (cfg : SubscriberCfg) (last : LastStored)
    (topic : String) (decoded : Option Json) (now : ℚ) (m : String) :
    onMessage cfg last topic decoded now (some m) =
      ([Effect.insertMqttLog (some (extract_device_id topic)) ("error")
          (some m) (some topic)], last) ∧
    logsWithStatus ("error")
      (onMessage cfg last topic decoded now none).1 = [] := by
  constructor
  · rfl
  · simp only [onMessage]
    unfold onMessageTry
    by_cases h1 : cfg.allowed_devices ≠ [] ∧
        extract_device_id topic ∉ cfg.allowed_devices
    · simp [h1, logsWithStatus]
    · simp only [if_neg h1]
      cases hp : parse_tasmota_message decoded cfg.field_map with
      | none => simp [logsWithStatus]
      | some parsed =>
        simp only []
        split
        · simp [logsWithStatus]
        · simp [logsWithStatus]

/-! ## Order facts about the TEXT comparison -/

/-- Irreflexivity of the TEXT order. -/
theorem charListLt_irrefl (a : List Char) : charListLt a a = false := by
  induction a with
  | nil => rfl
  | cons x xs ih => simp [charListLt, ih]

/-- Transitivity of the complement of the TEXT order (greater or equal). -/
theorem charListLt_false_trans (a : List Char) : ∀ b c : List Char,
    charListLt a b = false → charListLt b c = false →
    charListLt a c = false := by
  induction a with
  | nil =>
    intro b c hab hbc
    cases b with
    | nil =>
      cases c with
      | nil => rfl
      | cons z zs => cases hbc
    | cons y ys => cases hab
  | cons x xs ih =>
    intro b c hab hbc
    cases b with
    | nil =>
      cases c with
      | nil => rfl
      | cons z zs => cases hbc
    | cons y ys =>
      cases c with
      | nil => rfl
      | cons z zs =>
        simp only [charListLt] at hab hbc ⊢
        by_cases hxy : x.toNat < y.toNat
        · rw [if_pos hxy] at hab
          cases hab
        · by_cases hyz : y.toNat < z.toNat
          · rw [if_neg hxy, if_pos hyz] at *
            cases hbc
          · by_cases hyx : y.toNat < x.toNat
            · rw [if_neg hxy, if_pos hyx] at hab
              by_cases hzy : z.toNat < y.toNat
              · rw [if_neg (by omega), if_pos (by omega)]
              · rw [if_neg (by omega), if_pos (by omega)]
            · by_cases hzy : z.toNat < y.toNat
              · rw [if_neg (by omega), if_pos (by omega)]
              · rw [if_neg hxy, if_neg hyx] at hab
                rw [if_neg hyz, if_neg hzy] at hbc
                rw [if_neg (by omega), if_neg (by omega)]
                exact ih ys zs hab hbc

/-- Asymmetry of the TEXT order. -/
theorem charListLt_asymm (a : List Char) : ∀ b : List Char,
    charListLt a b = true → charListLt b a = false := by
  induction a with
  | nil =>
    intro b h
    cases b with
    | nil => cases h
    | cons y ys => rfl
  | cons x xs ih =>
    intro b h
    cases b with
    | nil => cases h
    | cons y ys =>
      simp only [charListLt] at h ⊢
      by_cases hxy : x.toNat < y.toNat
      · rw [if_neg (by omega), if_pos (by omega)]
      · by_cases hyx : y.toNat < x.toNat
        · rw [if_neg hxy, if_pos hyx] at h
          cases h
        · rw [if_neg hxy, if_neg hyx] at h
          rw [if_neg hyx, if_neg hxy]
          exact ih ys h

/-- Greater or equal transitivity lifted to strings. -/
theorem strLt_false_trans (a b c : String)
    (hab : strLt a b = false) (hbc : strLt b c = false) :
    strLt a c = false :=
  charListLt_false_trans a.toList b.toList c.toList hab hbc

/-- Irreflexivity lifted to strings. -/
theorem strLt_irrefl (a : String) : strLt a a = false :=
  charListLt_irrefl a.toList

/-- Asymmetry lifted to strings. -/
theorem strLt_asymm (a b : String) (h : strLt a b = true) :
    strLt b a = false :=
  charListLt_asymm a.toList b.toList h

/-! ## Claim C9: the retention pruner -/

/-- Cutoff the claim describes: now minus retention_days interpreted in
local time, rendered the same way; the local clock reads the UTC instant
shifted by the environment timezone offset. -/
def specLocalCutoff (nowUtc : UtcTime) (tzOffsetMinutes : Nat) (n : Nat) :
    String :=
  sqliteRender
    (utcOfSeconds (nowUtc.toSeconds + tzOffsetMinutes * 60 - n * 86400))

/-- Clock instant of the C9 scenario: 2024-03-20 10:00:00 UTC, which in a
UTC+2 environment reads 12:00 local. -/
def c9Now : UtcTime :=
  { year := 2024, month := 3, day := 20, hour := 10, minute := 0, second := 0 }

/-- Audit entry written at 11:00 local time on the cutoff day (the mqtt_log
timestamp default renders local time with a space separator). -/
def c9Entry : MqttLogRow :=
  { timestamp := "2024-02-19 11:00:00", device_id := some ("dev1"),
    status := "ok", summary := none, topic := none }

/-- Store holding only the boundary audit entry. -/
def c9Db : DB :=
  { raw_readings := [], hourly_agg := [], daily_agg := [],
    mqtt_log := [c9Entry] }

/-- Counterexample to C9 as stated: with retention 30 days in a UTC+2
environment, the entry timestamped 2024-02-19 11:00:00 is older than the
local time cutoff 2024-02-19 12:00:00, so the claim requires its deletion,
yet prune_log compares against the UTC cutoff 2024-02-19 10:00:00 computed
by datetime with no localtime modifier, keeps the row and reports zero
deletions. -/
theorem prune_cutoff_not_local_counterexample :
    strLt c9Entry.timestamp (specLocalCutoff c9Now 120 30) = true ∧
    specLocalCutoff c9Now 120 30 = "2024-02-19 12:00:00" ∧
    sqliteNowMinusDays c9Now 30 = "2024-02-19 10:00:00" ∧
    prune_mqtt_log c9Db c9Now 30 = (c9Db, 0) := by
  refine ⟨by decide, by decide, by decide, by decide⟩

/-- Number of rows a filter drops, as a subtraction of lengths. -/
theorem filterNotLength {α : Type} (l : List α) (p : α → Bool) :
    l.length - (l.filter (fun a => !(p a))).length = (l.filter p).length := by
  induction l with
  | nil => rfl
  | cons x xs ih =>
    have hle : (xs.filter (fun a => !(p a))).length ≤ xs.length :=
      List.length_filter_le _ _
    cases h : p x <;> simp [h] <;> omega

/-- Claim C9 as amended: both pruners delete exactly the rows whose
timestamp string orders before the SQLite datetime rendering of now minus
retention_days taken on the UTC clock (not local time), report the number
of rows deleted, leave every other table untouched, and are no ops on an
empty table. -/
theorem prune_deletes_before_utc_cutoff (db : DB) (nowUtc : UtcTime)
    (n : Nat) :
    ((prune_raw_readings db nowUtc n).2 =
      (db.raw_readings.filter
        (fun r => strLt r.timestamp (sqliteNowMinusDays nowUtc n))).length) ∧
    (∀ r : RawReading, r ∈ (prune_raw_readings db nowUtc n).1.raw_readings ↔
      r ∈ db.raw_readings ∧
        strLt r.timestamp (sqliteNowMinusDays nowUtc n) = false) ∧
    (prune_raw_readings db nowUtc n).1.mqtt_log = db.mqtt_log ∧
    ((prune_mqtt_log db nowUtc n).2 =
      (db.mqtt_log.filter
        (fun r => strLt r.timestamp (sqliteNowMinusDays nowUtc n))).length) ∧
    (∀ r : MqttLogRow, r ∈ (prune_mqtt_log db nowUtc n).1.mqtt_log ↔
      r ∈ db.mqtt_log ∧
        strLt r.timestamp (sqliteNowMinusDays nowUtc n) = false) ∧
    (prune_mqtt_log db nowUtc n).1.raw_readings = db.raw_readings ∧
    (db.raw_readings = [] → prune_raw_readings db nowUtc n = (db, 0)) ∧
    (db.mqtt_log = [] → prune_mqtt_log db nowUtc n = (db, 0)) := by
  refine ⟨?_, ?_, rfl, ?_, ?_, rfl, ?_, ?_⟩
  · exact filterNotLength db.raw_readings _
  · intro r
    simp [prune_raw_readings, List.mem_filter]
  · exact filterNotLength db.mqtt_log _
  · intro r
    simp [prune_mqtt_log, List.mem_filter]
  · intro h
    simp [prune_raw_readings, h]
    cases db
    simp_all
  · intro h
    simp [prune_mqtt_log, h]
    cases db
    simp_all

/-- Store for the pruner witness: a 2020 reading (stale) and a 2099 reading
(far future), the example of the spec. -/
def c9WitnessDb : DB :=
  { raw_readings :=
      [mkReading ("2020-01-01T00:00:00") 1, mkReading ("2099-01-01T00:00:00") 2],
    hourly_agg := [], daily_agg := [], mqtt_log := [] }

/-- Witness for the amended C9: with retention 30 at the 2024 clock instant,
the deleted count the theorem yields evaluates to exactly 1 (the 2020
reading), the 2099 reading stays, and the empty log branch instantiates. -/
theorem prune_deletes_before_utc_cutoff_witness :
    (prune_raw_readings c9WitnessDb c9Now 30).2 = 1 ∧
    (mkReading ("2099-01-01T00:00:00") 2 ∈
      (prune_raw_readings c9WitnessDb c9Now 30).1.raw_readings) ∧
    prune_mqtt_log c9WitnessDb c9Now 30 = (c9WitnessDb, 0) := by
  refine ⟨?_, ?_, ?_⟩
  · rw [(prune_deletes_before_utc_cutoff c9WitnessDb c9Now 30).1]
    decide
  · exact ((prune_deletes_before_utc_cutoff c9WitnessDb c9Now 30).2.1
      (mkReading ("2099-01-01T00:00:00") 2)).mpr ⟨by decide, by decide⟩
  · exact (prune_deletes_before_utc_cutoff c9WitnessDb c9Now 30).2.2.2.2.2.2.2
      rfl

/-! ## Claim C10: the latest reading accessor -/

/-- Result of the timestamp fold is the start element or a list member. -/
theorem foldl_later_mem (rs : List RawReading) (a : RawReading) :
    rs.foldl laterByTimestamp a = a ∨ rs.foldl laterByTimestamp a ∈ rs := by
  induction rs generalizing a with
  | nil => exact Or.inl rfl
  | cons b bs ih =>
    simp only [List.foldl_cons]
    by_cases hc : strLt a.timestamp b.timestamp = true
    · have hab : laterByTimestamp a b = b := by
        rw [laterByTimestamp, if_pos hc]
      rw [hab]
      rcases ih b with h | h
      · rw [h]
        exact Or.inr (List.mem_cons_self b bs)
      · exact Or.inr (List.mem_cons_of_mem b h)
    · have hab : laterByTimestamp a b = a := by
        rw [laterByTimestamp, if_neg hc]
      rw [hab]
      rcases ih a with h | h
      · exact Or.inl h
      · exact Or.inr (List.mem_cons_of_mem b h)

/-- Later of two readings is not below its left argument. -/
theorem later_ge_left (a b : RawReading) :
    strLt (laterByTimestamp a b).timestamp a.timestamp = false := by
  rw [laterByTimestamp]
  by_cases hc : strLt a.timestamp b.timestamp = true
  · rw [if_pos hc]
    exact strLt_asymm _ _ hc
  · rw [if_neg hc]
    exact strLt_irrefl _

/-- Later of two readings is not below its right argument. -/
theorem later_ge_right (a b : RawReading) :
    strLt (laterByTimestamp a b).timestamp b.timestamp = false := by
  rw [laterByTimestamp]
  by_cases hc : strLt a.timestamp b.timestamp = true
  · rw [if_pos hc]
    exact strLt_irrefl _
  · rw [if_neg hc]
    simpa using hc

/-- Result of the timestamp fold is not below the start element or any list
member. -/
theorem foldl_later_max (rs : List RawReading) (a : RawReading) :
    ∀ x : RawReading, (x = a ∨ x ∈ rs) →
      strLt (rs.foldl laterByTimestamp a).timestamp x.timestamp = false := by
  induction rs generalizing a with
  | nil =>
    rintro x (rfl | hx)
    · exact strLt_irrefl _
    · cases hx
  | cons b bs ih =>
    rintro x (rfl | hx)
    · exact strLt_false_trans _ _ _
        (ih (laterByTimestamp x b) (laterByTimestamp x b) (Or.inl rfl))
        (later_ge_left x b)
    · rcases List.mem_cons.mp hx with rfl | hx2
      · exact strLt_false_trans _ _ _
          (ih (laterByTimestamp a x) (laterByTimestamp a x) (Or.inl rfl))
          (later_ge_right a x)
      · exact ih (laterByTimestamp a b) x (Or.inr hx2)

/-- Claim C10: the latest reading accessor returns none exactly when no row
matches the device filter, and otherwise returns a matching row whose
device reported timestamp string is maximal in the TEXT order over all
matching rows; latest is decided by that timestamp column alone, so a row
carrying a future timestamp stays latest regardless of insertion order (the
store assigned created_at is never consulted). -/
theorem get_latest_reading_spec (rows : List RawReading)
    (device_id : Option String) :
    (get_latest_reading rows device_id = none ↔
      deviceFiltered rows device_id = []) ∧
    (∀ r : RawReading, get_latest_reading rows device_id = some r →
      r ∈ deviceFiltered rows device_id ∧
      ∀ x ∈ deviceFiltered rows device_id,
        strLt r.timestamp x.timestamp = false) := by
  constructor
  · unfold get_latest_reading
    cases h : deviceFiltered rows device_id <;> simp [h]
  · intro r hr
    unfold get_latest_reading at hr
    cases h : deviceFiltered rows device_id with
    | nil =>
      rw [h] at hr
      exact Option.noConfusion hr
    | cons y ys =>
      rw [h] at hr
      injection hr with h2
      subst h2
      constructor
      · rcases foldl_later_mem ys y with he | he
        · rw [he]
          exact List.mem_cons_self y ys
        · exact List.mem_cons_of_mem y he
      · intro x hx
        rcases List.mem_cons.mp hx with hxy | hx2
        · rw [hxy]
          exact foldl_later_max ys y y (Or.inl rfl)
        · exact foldl_later_max ys y x (Or.inr hx2)

/-- Reading carrying a timestamp far in the future. -/
def futureReading : RawReading := mkReading ("2099-01-01T00:00:00") 5

/-- Storage order of the C10 witness: the future reading arrives first and
two readings with smaller device reported timestamps arrive after it. -/
def c10Rows : List RawReading :=
  [futureReading,
   mkReading ("2024-01-15T10:00:00") 6,
   mkReading ("2024-01-16T10:00:00") 7]

/-- Witness for C10: on the concrete store the accessor returns the future
reading even though two rows were inserted after it, and the claim theorem
instantiates there, giving membership and maximality. -/
theorem get_latest_reading_spec_witness :
    get_latest_reading c10Rows none = some futureReading ∧
    (futureReading ∈ deviceFiltered c10Rows none ∧
      ∀ x ∈ deviceFiltered c10Rows none,
        strLt futureReading.timestamp x.timestamp = false) :=
  ⟨by decide,
   (get_latest_reading_spec c10Rows none).2 futureReading (by decide)⟩

end Powerreader
